import Mathlib

/-!
Shallow embedding of the caronte HTTP application router
(`internal/core/application_router.go`) and theorems checking the
specification's claims about its route handlers.

Handlers are modelled as pure functions from their inputs (parsed route
parameters, JSON-bind results, and the results of the controller calls
they make) to the response they write and the notifications they emit.
Controller behaviour that lives outside the router slice is passed in as
a function argument, so each theorem quantifies over every possible
controller outcome.
-/

namespace Caronte

/-- Rules are treated opaquely by the router: it binds one from the JSON
body and hands it to the RulesManager without inspecting any field, so
the embedding keeps only an abstract payload. -/
structure Rule where
  payload : String
deriving DecidableEq, Repr

/-- Values carried in JSON response bodies and notification payloads. -/
inductive DocValue where
  | str : String → DocValue
  | boolVal : Bool → DocValue
  | rule : Rule → DocValue
  | doc : List (String × DocValue) → DocValue

/-- The response a handler writes: a JSON body with a status code, a file
attachment (gin FileAttachment, status 200), or a bare abort status. -/
inductive RouteResponse where
  | json (status : Nat) (body : DocValue)
  | fileAttachment (path : String) (filename : String)
  | abortStatus (status : Nat)

/-- HTTP status code of a response; FileAttachment serves with 200. -/
def RouteResponse.status : RouteResponse → Nat
  | .json s _ => s
  | .fileAttachment _ _ => 200
  | .abortStatus s => s

/-- What a handler produced: the response written to the client and the
list of (topic, payload) notifications pushed to the NotificationController,
in emission order. -/
structure HandlerOutput where
  response : RouteResponse
  notifications : List (String × DocValue)

/-- Helper `success` from application_router.go: 200 with a JSON body. -/
def success (body : DocValue) : RouteResponse :=
  .json 200 body

/-- Helper `badRequest` from application_router.go: 400 with a result/error doc. -/
def badRequest (err : String) : RouteResponse :=
  .json 400 (.doc [("result", .str "error"), ("error", .str err)])

/-- Helper `unprocessableEntity` from application_router.go: 422 with a result/error doc. -/
def unprocessableEntity (err : String) : RouteResponse :=
  .json 422 (.doc [("result", .str "error"), ("error", .str err)])

/-- Helper `notFound` from application_router.go: 404 with the given body. -/
def notFound (body : DocValue) : RouteResponse :=
  .json 404 body

/-- Modelled from the spec: row ids (sessions, rules, connections) travel
as hex strings; `RowIDFromHex` (storage layer, not in src/) accepts
exactly the well-formed hex ids — 24 hexadecimal characters — and fails
on anything else. The id keeps its canonical hex form, so `Hex()` is the
identity in this model. -/
def isHexDigitChar (c : Char) : Bool :=
  c.isDigit || (Char.ofNat 97 ≤ c && c ≤ Char.ofNat 102) || (Char.ofNat 65 ≤ c && c ≤ Char.ofNat 70)

/-- Modelled from the spec: parse a row id from its 24-character hex form. -/
def RowIDFromHex (s : String) : Except String String :=
  if s.length == 24 && s.toList.all isHexDigitChar then .ok s
  else .error "invalid hex id"

/-- The `TextSearch` options struct bound from the search payload. -/
structure TextSearch where
  terms : Option (List String)
  excludedTerms : Option (List String)
  exactPhrase : String
  caseSensitive : Bool
deriving DecidableEq, Repr

/-- The `RegexSearch` options struct bound from the search payload. -/
structure RegexSearch where
  pattern : String
  notPattern : String
  caseSensitive : Bool
deriving DecidableEq, Repr

/-- The `SearchOptions` payload of POST /api/searches/perform. -/
structure SearchOptions where
  textSearch : TextSearch
  regexSearch : RegexSearch
deriving DecidableEq, Repr

/-- Modelled from the spec: `TextSearch.isZero` (search controller, not in
src/) — a text search is absent when none of its term fields is set. -/
def TextSearch.isZero (t : TextSearch) : Bool :=
  t.terms.isNone && t.excludedTerms.isNone && (t.exactPhrase == "")

/-- Modelled from the spec: `RegexSearch.isZero` (search controller, not in
src/) — a regex search is absent when neither pattern field is set. -/
def RegexSearch.isZero (r : RegexSearch) : Bool :=
  (r.pattern == "") && (r.notPattern == "")

/-- The inline validation of POST /api/searches/perform
(application_router.go lines 430-447): `badContentError` starts nil and is
overwritten by each failed check in order, so the returned message is the
last failure; the request is rejected iff the result is `some`. -/
def searchBadContent (o : SearchOptions) : Option String :=
  let b1 : Option String :=
    if o.textSearch.isZero == o.regexSearch.isZero then
      some "specify either text_search or regex_search"
    else none
  let b2 : Option String :=
    if !o.textSearch.isZero then
      let b2a : Option String :=
        if o.textSearch.terms.isNone == (o.textSearch.exactPhrase == "") then
          some "specify either terms or exact_phrase"
        else b1
      if o.textSearch.terms.isNone && o.textSearch.excludedTerms.isSome then
        some "excluded_terms must be specified only with terms"
      else b2a
    else b1
  if !o.regexSearch.isZero then
    if (o.regexSearch.pattern == "") == (o.regexSearch.notPattern == "") then
      some "specify either pattern or not_pattern"
    else b2
  else b2

/-- Handler of POST /api/searches/perform. Returns the handler output and
the options actually passed to SearchController.PerformSearch (`none` when
the controller was never reached). -/
def performSearchHandler (bindResult : Except String SearchOptions)
    (performSearch : SearchOptions → DocValue) :
    HandlerOutput × Option SearchOptions :=
  match bindResult with
  | .error e => (⟨badRequest e, []⟩, none)
  | .ok options =>
    match searchBadContent options with
    | some e => (⟨badRequest e, []⟩, none)
    | none => (⟨success (performSearch options), []⟩, some options)

/-- The exclusivity rules exactly as the specification states them:
exactly one of text_search / regex_search present; within text_search
exactly one of terms or exact_phrase, and excluded_terms only together
with terms; within regex_search exactly one of pattern or not_pattern. -/
def specSearchValid (o : SearchOptions) : Bool :=
  (o.textSearch.isZero != o.regexSearch.isZero) &&
  (o.textSearch.isZero ||
    ((o.textSearch.terms.isSome != (o.textSearch.exactPhrase != "")) &&
     !(o.textSearch.excludedTerms.isSome && o.textSearch.terms.isNone))) &&
  (o.regexSearch.isZero ||
    ((o.regexSearch.pattern != "") != (o.regexSearch.notPattern != "")))

/-- Modelled from the spec: `pcaps/processing/` is the reserved path for
work-in-progress pcap files. -/
def ProcessingPcapsBasePath : String := "pcaps/processing"

/-- Modelled from the spec: `pcaps/` is the reserved path for completed
session pcaps, named `<session_id>.pcap[ng]`. -/
def PcapsBasePath : String := "pcaps"

/-- Go filepath.Join restricted to the clean relative paths the router uses. -/
def filepathJoin (dir file : String) : String :=
  dir ++ "/" ++ file

/-- Go filepath.Base restricted to the clean paths the router uses: the last
slash-separated component (slash is character 47). -/
def filepathBase (path : String) : String :=
  match (path.toList.splitOn (Char.ofNat 47)).getLast? with
  | some base => String.mk base
  | none => path

/-- Modelled from the spec: the PcapImporter keeps a table of running
sessions; only that table is relevant to cancel_session. -/
structure PcapImporter where
  runningSessions : List String
deriving DecidableEq, Repr

/-- Modelled from the spec: cancel_session signals the worker to abort and
returns true iff a running session with that id was cancelled; the session
leaves the running table. -/
def PcapImporter.CancelSession (p : PcapImporter) (id : String) :
    Bool × PcapImporter :=
  if p.runningSessions.contains id then
    (true, ⟨p.runningSessions.filter (fun s => s != id)⟩)
  else
    (false, p)

/-- Handler of DELETE /api/pcap/sessions/:id (application_router.go 327-340):
parse the id, cancel, 202 plus a sessions.delete notification when cancelled,
404 with no notification otherwise. -/
def deleteSessionHandler (idParam : String) (importer : PcapImporter) :
    HandlerOutput × PcapImporter :=
  match RowIDFromHex idParam with
  | .error e => (⟨badRequest e, []⟩, importer)
  | .ok sessionID =>
    let session : DocValue := .doc [("session", .str sessionID)]
    match importer.CancelSession sessionID with
    | (true, importer2) =>
      (⟨.json 202 session, [("sessions.delete", session)]⟩, importer2)
    | (false, importer2) => (⟨notFound session, []⟩, importer2)

/-- Handler of POST /api/rules (application_router.go 90-105). AddRule is the
RulesManager call, returning the new rule id or an error. -/
def postRulesHandler (bindResult : Except String Rule)
    (addRule : Rule → Except String String) : HandlerOutput :=
  match bindResult with
  | .error e => ⟨badRequest e, []⟩
  | .ok rule =>
    match addRule rule with
    | .error e => ⟨unprocessableEntity e, []⟩
    | .ok id =>
      ⟨success (.doc [("id", .str id)]), [("rules.new", .doc [("id", .str id)])]⟩

/-- Handler of PUT /api/rules/:id (application_router.go 122-144). UpdateRule
returns (isPresent, err) in Go; here an error, or the isPresent flag. Note the
source answers an UpdateRule error with badRequest, not unprocessableEntity. -/
def putRuleHandler (idParam : String) (bindResult : Except String Rule)
    (updateRule : String → Rule → Except String Bool) : HandlerOutput :=
  match RowIDFromHex idParam with
  | .error e => ⟨badRequest e, []⟩
  | .ok id =>
    match bindResult with
    | .error e => ⟨badRequest e, []⟩
    | .ok rule =>
      match updateRule id rule with
      | .error e => ⟨badRequest e, []⟩
      | .ok false => ⟨notFound (.doc [("error", .str "not found"), ("id", .str id)]), []⟩
      | .ok true => ⟨success (.rule rule), [("rules.edit", .rule rule)]⟩

/-- Handler of GET /api/rules/:id (application_router.go 107-120). -/
def getRuleHandler (idParam : String) (getRule : String → Option Rule) :
    HandlerOutput :=
  match RowIDFromHex idParam with
  | .error e => ⟨badRequest e, []⟩
  | .ok id =>
    match getRule id with
    | none => ⟨notFound (.doc [("error", .str "not found"), ("id", .str id)]), []⟩
    | some rule => ⟨success (.rule rule), []⟩

/-- Handler of GET /api/pcap/sessions/:id (application_router.go 292-303).
GetSession yields the session snapshot as a document when present. -/
def getSessionHandler (idParam : String) (getSession : String → Option DocValue) :
    HandlerOutput :=
  match RowIDFromHex idParam with
  | .error e => ⟨badRequest e, []⟩
  | .ok sessionID =>
    match getSession sessionID with
    | some session => ⟨success session, []⟩
    | none =>
      ⟨notFound (.doc [("error", .str "not found"), ("session", .str sessionID)]), []⟩

/-- Handler of GET /api/connections/:id (application_router.go 366-376). -/
def getConnectionHandler (idParam : String)
    (getConnection : String → Option DocValue) : HandlerOutput :=
  match RowIDFromHex idParam with
  | .error e => ⟨badRequest e, []⟩
  | .ok id =>
    match getConnection id with
    | some connection => ⟨success connection, []⟩
    | none => ⟨notFound (.doc [("error", .str "not found"), ("connection", .str id)]), []⟩

/-- The query-bound format options of GET /api/streams/:id. -/
structure GetMessageFormat where
  format : String
deriving DecidableEq, Repr

/-- Handler of GET /api/streams/:id (application_router.go 457-474).
GetConnectionMessages yields the messages when the connection is found. -/
def getStreamHandler (idParam : String) (formatBind : Except String GetMessageFormat)
    (getMessages : String → GetMessageFormat → Option DocValue) : HandlerOutput :=
  match RowIDFromHex idParam with
  | .error e => ⟨badRequest e, []⟩
  | .ok id =>
    match formatBind with
    | .error e => ⟨badRequest e, []⟩
    | .ok format =>
      match getMessages id format with
      | none => ⟨notFound (.doc [("error", .str "not found"), ("connection", .str id)]), []⟩
      | some messages => ⟨success messages, []⟩

/-- Handler of GET /api/pcap/sessions/:id/download (application_router.go
305-325): for an existing session serve `<hex>.pcap` under the pcaps base
path, else `<hex>.pcapng`, else fall through to 404; unknown session is 404. -/
def downloadSessionHandler (idParam : String)
    (getSession : String → Option DocValue) (fileExists : String → Bool) :
    HandlerOutput :=
  match RowIDFromHex idParam with
  | .error e => ⟨badRequest e, []⟩
  | .ok sessionID =>
    let fallthrough : HandlerOutput :=
      ⟨notFound (.doc [("error", .str "not found"), ("session", .str sessionID)]), []⟩
    match getSession sessionID with
    | some _ =>
      let pcapPath := filepathJoin PcapsBasePath (sessionID ++ ".pcap")
      let pcapngPath := filepathJoin PcapsBasePath (sessionID ++ ".pcapng")
      if fileExists pcapPath then ⟨.fileAttachment pcapPath (sessionID ++ ".pcap"), []⟩
      else if fileExists pcapngPath then
        ⟨.fileAttachment pcapngPath (sessionID ++ ".pcapng"), []⟩
      else fallthrough
    | none => fallthrough

/-- A call into the ConnectionsController made by the connection action
route; these are the only mutations the router exposes on connections. -/
inductive ControllerCall where
  | setHidden (id : String) (value : Bool)
  | setMarked (id : String) (value : Bool)
  | setComment (id : String) (comment : String)
deriving DecidableEq, Repr

/-- Handler of POST /api/connections/:id/:action (application_router.go
378-416). Returns the output together with the controller call that was made
(`none` when no controller was invoked). `controller` gives each call's
boolean result; `commentBind` is the JSON bind of the comment body. -/
def connectionActionHandler (idParam : String) (action : String)
    (commentBind : Except String String) (controller : ControllerCall → Bool) :
    HandlerOutput × Option ControllerCall :=
  match RowIDFromHex idParam with
  | .error e => (⟨badRequest e, []⟩, none)
  | .ok id =>
    let run (call : ControllerCall) : HandlerOutput × Option ControllerCall :=
      if controller call then
        let response : DocValue :=
          .doc [("connection_id", .str idParam), ("action", .str action)]
        (⟨success response, [("connections.action", response)]⟩, some call)
      else
        (⟨notFound (.doc [("error", .str "not found"), ("connection", .str id)]), []⟩,
          some call)
    if action == "hide" then run (.setHidden id true)
    else if action == "show" then run (.setHidden id false)
    else if action == "mark" then run (.setMarked id true)
    else if action == "unmark" then run (.setMarked id false)
    else if action == "comment" then
      match commentBind with
      | .error e => (⟨badRequest e, []⟩, none)
      | .ok comment => run (.setComment id comment)
    else (⟨badRequest "invalid action", []⟩, none)

/-- The slice of the application Config the router reads. -/
structure Config where
  authRequired : Bool
deriving DecidableEq, Repr

/-- gin.Accounts: user to password. -/
abbrev Accounts := List (String × String)

/-- The settings struct bound by POST /setup. -/
structure SetupSettings where
  config : Config
  accounts : Accounts
deriving DecidableEq, Repr

/-- Handler of POST /setup (application_router.go 49-70): 404 once configured,
otherwise bind, apply the settings, answer 202 and notify. The second
component is the settings applied to the application context, if any. -/
def setupHandler (isConfigured : Bool) (bindResult : Except String SetupSettings) :
    HandlerOutput × Option SetupSettings :=
  if isConfigured then (⟨.abortStatus 404, []⟩, none)
  else
    match bindResult with
    | .error e => (⟨badRequest e, []⟩, none)
    | .ok settings => (⟨.json 202 (.doc []), [("setup", .doc [])]⟩, some settings)

/-- Outcome of a middleware: pass the request on, or abort with a JSON body. -/
inductive MiddlewareResult where
  | next
  | abortJson (status : Nat) (body : DocValue)

/-- SetupRequiredMiddleware (application_router.go 559-570): abort every /api
request with 503 and a setup-required error until the application is
configured. -/
def SetupRequiredMiddleware (isConfigured : Bool) (host : String) :
    MiddlewareResult :=
  if !isConfigured then
    .abortJson 503 (.doc [("error", .str "setup required"), ("url", .str (host ++ "/setup"))])
  else .next

/-- gin.BasicAuth contract (external library): pass through exactly the
requests carrying a credential pair listed in the accounts, abort 401
otherwise. -/
def BasicAuth (accounts : Accounts) (credentials : Option (String × String)) :
    MiddlewareResult :=
  match credentials with
  | some pair => if accounts.contains pair then .next else .abortJson 401 (.doc [])
  | none => .abortJson 401 (.doc [])

/-- AuthRequiredMiddleware (application_router.go 572-581): when auth is not
required every request passes through before any credential is looked at;
otherwise gin.BasicAuth enforces the configured accounts. -/
def AuthRequiredMiddleware (authRequired : Bool) (accounts : Accounts)
    (credentials : Option (String × String)) : MiddlewareResult :=
  if !authRequired then .next
  else BasicAuth accounts credentials

/-- The /api group middleware chain (application_router.go 78-80): setup gate,
then auth gate, then the route handler. An aborting middleware writes its own
JSON response and the handler never runs. -/
def runApiRoute (isConfigured : Bool) (host : String) (authRequired : Bool)
    (accounts : Accounts) (credentials : Option (String × String))
    (handler : Unit → HandlerOutput) : HandlerOutput :=
  match SetupRequiredMiddleware isConfigured host with
  | .abortJson status body => ⟨.json status body, []⟩
  | .next =>
    match AuthRequiredMiddleware authRequired accounts credentials with
    | .abortJson status body => ⟨.json status body, []⟩
    | .next => handler ()

/-- A filesystem side effect performed by a handler, in program order. -/
inductive FsEvent where
  | copy (dst : String) (src : String)
  | remove (path : String)
deriving DecidableEq, Repr

/-- The JSON body of POST /api/pcap/file. -/
structure PcapFileRequest where
  file : String
  flushAll : Bool
  deleteOriginalFile : Bool
deriving DecidableEq, Repr

/-- Handler of POST /api/pcap/file (application_router.go 168-200): reject a
missing source file with 400 before any copy; copy the file into the
processing directory under a timestamp-prefixed name; on an ImportPcap error
remove the original iff delete_original_file was set and answer 422; on
success answer 202 and notify, leaving the original untouched. `now` is the
UnixNano timestamp; a CopyFile failure panics in the source and is outside
this model. -/
def postPcapFileHandler (bindResult : Except String PcapFileRequest)
    (fileExists : String → Bool) (now : Nat)
    (importPcap : String → Bool → Except String String) :
    HandlerOutput × List FsEvent :=
  match bindResult with
  | .error e => (⟨badRequest e, []⟩, [])
  | .ok request =>
    if !fileExists request.file then (⟨badRequest "file not exists", []⟩, [])
    else
      let fileName := toString now ++ "-" ++ filepathBase request.file
      let copyEvent := FsEvent.copy (filepathJoin ProcessingPcapsBasePath fileName) request.file
      match importPcap fileName request.flushAll with
      | .error e =>
        if request.deleteOriginalFile then
          (⟨unprocessableEntity e, []⟩, [copyEvent, .remove request.file])
        else (⟨unprocessableEntity e, []⟩, [copyEvent])
      | .ok sessionID =>
        (⟨.json 202 (.doc [("session", .str sessionID)]),
          [("pcap.file", .doc [("session", .str sessionID)])]⟩, [copyEvent])

/-- The router's validation chain rejects a payload exactly when the
specification's exclusivity rules fail. -/
theorem searchBadContent_isSome (o : SearchOptions) :
    (searchBadContent o).isSome = !(specSearchValid o) := by
  rcases o with ⟨⟨terms, ex, phrase, cs⟩, ⟨pat, npat, rcs⟩⟩
  simp only [searchBadContent, specSearchValid, TextSearch.isZero, RegexSearch.isZero, bne]
  simp only [← Bool.cond_eq_ite]
  rcases terms with _ | t <;> rcases ex with _ | x <;>
    generalize (phrase == "") = pe <;>
    generalize (pat == "") = pz <;>
    generalize (npat == "") = nz <;>
    cases pe <;> cases pz <;> cases nz <;> rfl

/-- C1: a SearchOptions payload submitted to POST /api/searches/perform is
answered 400 without reaching PerformSearch if and only if it violates the
exclusivity rules (exactly one of text_search / regex_search; within
text_search exactly one of terms / exact_phrase with excluded_terms only
alongside terms; within regex_search exactly one of pattern / not_pattern);
in particular a payload carrying both exact_phrase and terms is rejected. -/
theorem perform_search_validates_exclusivity (o : SearchOptions)
    (ps : SearchOptions → DocValue) :
    (((performSearchHandler (.ok o) ps).1.response.status = 400 ∧
      (performSearchHandler (.ok o) ps).2 = none) ↔ specSearchValid o = false) ∧
    ((performSearchHandler (.ok o) ps).2 = some o ↔ specSearchValid o = true) ∧
    (o.textSearch.terms.isSome = true → o.textSearch.exactPhrase ≠ "" →
      (performSearchHandler (.ok o) ps).1.response.status = 400 ∧
      (performSearchHandler (.ok o) ps).2 = none) := by
  have hkey := searchBadContent_isSome o
  have hterm : o.textSearch.terms.isSome = true → o.textSearch.exactPhrase ≠ "" →
      specSearchValid o = false := by
    intro h1 h2
    obtain ⟨v, hv⟩ := Option.isSome_iff_exists.mp h1
    simp [specSearchValid, TextSearch.isZero, hv, h2, bne]
  cases hbc : searchBadContent o with
  | some e =>
    rw [hbc] at hkey
    have hv : specSearchValid o = false := by
      cases hsv : specSearchValid o
      · rfl
      · rw [hsv] at hkey
        simp at hkey
    simp [performSearchHandler, hbc, badRequest, RouteResponse.status, hv]
  | none =>
    rw [hbc] at hkey
    have hv : specSearchValid o = true := by
      cases hsv : specSearchValid o
      · rw [hsv] at hkey
        simp at hkey
      · rfl
    refine ⟨?_, ?_, ?_⟩
    · simp [performSearchHandler, hbc, success, RouteResponse.status, hv]
    · simp [performSearchHandler, hbc, hv]
    · intro h1 h2
      rw [hterm h1 h2] at hv
      simp at hv

/-- Witness for the C1 theorem at a payload with both terms and
exact_phrase present: it is rejected with 400 and PerformSearch never runs. -/
theorem perform_search_validates_exclusivity_witness :
    (performSearchHandler
        (.ok ⟨⟨some ["alpha"], none, "beta", false⟩, ⟨"", "", false⟩⟩)
        (fun _ => .doc [])).1.response.status = 400 ∧
    (performSearchHandler
        (.ok ⟨⟨some ["alpha"], none, "beta", false⟩, ⟨"", "", false⟩⟩)
        (fun _ => .doc [])).2 = none :=
  (perform_search_validates_exclusivity _ _).2.2 rfl (by decide)

/-- C2: for a well-formed session id, cancel_session returns true exactly
when a running session with that id existed, and DELETE /pcap/sessions/:id
answers 202 with the session id and a sessions.delete notification in that
case, 404 without any notification otherwise. -/
theorem cancel_session_route (idParam : String) (id : String)
    (importer : PcapImporter) (hid : RowIDFromHex idParam = .ok id) :
    ((importer.CancelSession id).1 = importer.runningSessions.contains id) ∧
    (importer.runningSessions.contains id = true →
      deleteSessionHandler idParam importer =
        (⟨.json 202 (.doc [("session", .str id)]),
          [("sessions.delete", .doc [("session", .str id)])]⟩,
         ⟨importer.runningSessions.filter (fun s => s != id)⟩)) ∧
    (importer.runningSessions.contains id = false →
      deleteSessionHandler idParam importer =
        (⟨notFound (.doc [("session", .str id)]), []⟩, importer)) := by
  refine ⟨?_, ?_, ?_⟩
  · by_cases hm : id ∈ importer.runningSessions
    · simp [PcapImporter.CancelSession, hm]
    · simp [PcapImporter.CancelSession, hm]
  · intro h
    have hm : id ∈ importer.runningSessions := by simpa using h
    simp [deleteSessionHandler, hid, PcapImporter.CancelSession, hm]
  · intro h
    have hm : id ∉ importer.runningSessions := by simpa using h
    simp [deleteSessionHandler, hid, PcapImporter.CancelSession, hm]

/-- Witness for the C2 theorem: cancelling a running session answers 202
and notifies; cancelling an unknown id answers 404 without notifying. -/
theorem cancel_session_route_witness :
    deleteSessionHandler "aaaaaaaaaaaaaaaaaaaaaaaa" ⟨["aaaaaaaaaaaaaaaaaaaaaaaa"]⟩ =
      (⟨.json 202 (.doc [("session", .str "aaaaaaaaaaaaaaaaaaaaaaaa")]),
        [("sessions.delete", .doc [("session", .str "aaaaaaaaaaaaaaaaaaaaaaaa")])]⟩,
       ⟨[]⟩) ∧
    deleteSessionHandler "aaaaaaaaaaaaaaaaaaaaaaaa" ⟨[]⟩ =
      (⟨notFound (.doc [("session", .str "aaaaaaaaaaaaaaaaaaaaaaaa")]), []⟩, ⟨[]⟩) := by
  constructor
  · exact ((cancel_session_route "aaaaaaaaaaaaaaaaaaaaaaaa" "aaaaaaaaaaaaaaaaaaaaaaaa"
      ⟨["aaaaaaaaaaaaaaaaaaaaaaaa"]⟩ rfl).2.1 (by decide)).trans rfl
  · exact (cancel_session_route "aaaaaaaaaaaaaaaaaaaaaaaa" "aaaaaaaaaaaaaaaaaaaaaaaa"
      ⟨[]⟩ rfl).2.2 (by decide)

/-- C3: POST /api/rules with a bound Rule answers 422 carrying the error and
sends no notification when AddRule fails, and answers 200 with the new id
plus a rules.new notification carrying that id when AddRule succeeds. -/
theorem add_rule_route (bindResult : Except String Rule) (rule : Rule)
    (addRule : Rule → Except String String) (hbind : bindResult = .ok rule) :
    (∀ e, addRule rule = .error e →
      postRulesHandler bindResult addRule = ⟨unprocessableEntity e, []⟩) ∧
    (∀ id, addRule rule = .ok id →
      postRulesHandler bindResult addRule =
        ⟨success (.doc [("id", .str id)]), [("rules.new", .doc [("id", .str id)])]⟩) := by
  constructor
  · intro e he
    simp [postRulesHandler, hbind, he]
  · intro id hok
    simp [postRulesHandler, hbind, hok]

/-- Witness for the C3 theorem: a failing AddRule gives 422 with no
notification; a succeeding one gives 200 with the id and the notification. -/
theorem add_rule_route_witness :
    postRulesHandler (.ok ⟨"r"⟩) (fun _ => .error "invalid pattern") =
      ⟨unprocessableEntity "invalid pattern", []⟩ ∧
    postRulesHandler (.ok ⟨"r"⟩) (fun _ => .ok "cafe") =
      ⟨success (.doc [("id", .str "cafe")]),
        [("rules.new", .doc [("id", .str "cafe")])]⟩ :=
  ⟨(add_rule_route _ ⟨"r"⟩ _ rfl).1 "invalid pattern" rfl,
   (add_rule_route _ ⟨"r"⟩ _ rfl).2 "cafe" rfl⟩

/-- C4 counterexample: an UpdateRule failure on PUT /api/rules/:id is
answered with status 400 (badRequest), not with the 422 (unprocessableEntity)
that an identical AddRule failure gets on POST /api/rules, so the two routes
do not share the error status the claim asserts. -/
theorem update_rule_status_counterexample :
    (putRuleHandler "aaaaaaaaaaaaaaaaaaaaaaaa" (.ok ⟨"r"⟩)
        (fun _ _ => .error "compile failed")).response.status = 400 ∧
    (postRulesHandler (.ok ⟨"r"⟩)
        (fun _ => .error "compile failed")).response.status = 422 ∧
    (400 : Nat) ≠ 422 :=
  ⟨rfl, rfl, by decide⟩

/-- C4 amended: PUT /api/rules/:id with a well-formed id and bound Rule
answers 400 Bad Request carrying the error when UpdateRule fails (unlike
add_rule's 422), 404 Not Found when the id is unknown, and only on success
returns the rule with a rules.edit notification. -/
theorem update_rule_route (idParam : String) (id : String)
    (bindResult : Except String Rule) (rule : Rule)
    (updateRule : String → Rule → Except String Bool)
    (hid : RowIDFromHex idParam = .ok id) (hbind : bindResult = .ok rule) :
    (∀ e, updateRule id rule = .error e →
      putRuleHandler idParam bindResult updateRule = ⟨badRequest e, []⟩) ∧
    (updateRule id rule = .ok false →
      putRuleHandler idParam bindResult updateRule =
        ⟨notFound (.doc [("error", .str "not found"), ("id", .str id)]), []⟩) ∧
    (updateRule id rule = .ok true →
      putRuleHandler idParam bindResult updateRule =
        ⟨success (.rule rule), [("rules.edit", .rule rule)]⟩) := by
  refine ⟨?_, ?_, ?_⟩
  · intro e he
    simp [putRuleHandler, hid, hbind, he]
  · intro h
    simp [putRuleHandler, hid, hbind, h]
  · intro h
    simp [putRuleHandler, hid, hbind, h]

/-- Witness for the amended C4 theorem at concrete inputs: failure gives 400,
unknown id gives 404, success gives the rule plus the notification. -/
theorem update_rule_route_witness :
    putRuleHandler "aaaaaaaaaaaaaaaaaaaaaaaa" (.ok ⟨"r"⟩)
        (fun _ _ => .error "compile failed") = ⟨badRequest "compile failed", []⟩ ∧
    putRuleHandler "aaaaaaaaaaaaaaaaaaaaaaaa" (.ok ⟨"r"⟩) (fun _ _ => .ok false) =
      ⟨notFound (.doc [("error", .str "not found"),
        ("id", .str "aaaaaaaaaaaaaaaaaaaaaaaa")]), []⟩ ∧
    putRuleHandler "aaaaaaaaaaaaaaaaaaaaaaaa" (.ok ⟨"r"⟩) (fun _ _ => .ok true) =
      ⟨success (.rule ⟨"r"⟩), [("rules.edit", .rule ⟨"r"⟩)]⟩ :=
  ⟨(update_rule_route "aaaaaaaaaaaaaaaaaaaaaaaa" "aaaaaaaaaaaaaaaaaaaaaaaa" _ ⟨"r"⟩ _
      rfl rfl).1 "compile failed" rfl,
   (update_rule_route "aaaaaaaaaaaaaaaaaaaaaaaa" "aaaaaaaaaaaaaaaaaaaaaaaa" _ ⟨"r"⟩ _
      rfl rfl).2.1 rfl,
   (update_rule_route "aaaaaaaaaaaaaaaaaaaaaaaa" "aaaaaaaaaaaaaaaaaaaaaaaa" _ ⟨"r"⟩ _
      rfl rfl).2.2 rfl⟩

/-- C5: looking up a rule, pcap session, connection, or stream by a
well-formed id that names no existing entity answers 404 with a body naming
the missing id, while a malformed hex id answers 400 on each of the four
routes. -/
theorem lookup_not_found_routes (idParam : String) (id : String)
    (getRule : String → Option Rule)
    (getSession : String → Option DocValue)
    (getConnection : String → Option DocValue)
    (format : GetMessageFormat)
    (getMessages : String → GetMessageFormat → Option DocValue) :
    (RowIDFromHex idParam = .ok id →
      (getRule id = none →
        getRuleHandler idParam getRule =
          ⟨notFound (.doc [("error", .str "not found"), ("id", .str id)]), []⟩) ∧
      (getSession id = none →
        getSessionHandler idParam getSession =
          ⟨notFound (.doc [("error", .str "not found"), ("session", .str id)]), []⟩) ∧
      (getConnection id = none →
        getConnectionHandler idParam getConnection =
          ⟨notFound (.doc [("error", .str "not found"), ("connection", .str id)]), []⟩) ∧
      (getMessages id format = none →
        getStreamHandler idParam (.ok format) getMessages =
          ⟨notFound (.doc [("error", .str "not found"), ("connection", .str id)]), []⟩)) ∧
    (∀ e, RowIDFromHex idParam = .error e →
      (getRuleHandler idParam getRule).response.status = 400 ∧
      (getSessionHandler idParam getSession).response.status = 400 ∧
      (getConnectionHandler idParam getConnection).response.status = 400 ∧
      (getStreamHandler idParam (.ok format) getMessages).response.status = 400) := by
  constructor
  · intro hid
    refine ⟨?_, ?_, ?_, ?_⟩ <;> intro h
    · simp [getRuleHandler, hid, h]
    · simp [getSessionHandler, hid, h]
    · simp [getConnectionHandler, hid, h]
    · simp [getStreamHandler, hid, h]
  · intro e he
    refine ⟨?_, ?_, ?_, ?_⟩
    · simp [getRuleHandler, he, badRequest, RouteResponse.status]
    · simp [getSessionHandler, he, badRequest, RouteResponse.status]
    · simp [getConnectionHandler, he, badRequest, RouteResponse.status]
    · simp [getStreamHandler, he, badRequest, RouteResponse.status]

/-- Witness for the C5 theorem: a well-formed unknown id gives 404 on the
rule route, and a malformed id gives 400 on all four routes. -/
theorem lookup_not_found_routes_witness :
    getRuleHandler "aaaaaaaaaaaaaaaaaaaaaaaa" (fun _ => none) =
      ⟨notFound (.doc [("error", .str "not found"),
        ("id", .str "aaaaaaaaaaaaaaaaaaaaaaaa")]), []⟩ ∧
    (getRuleHandler "zz" (fun _ => none)).response.status = 400 ∧
    (getSessionHandler "zz" (fun _ => none)).response.status = 400 ∧
    (getConnectionHandler "zz" (fun _ => none)).response.status = 400 ∧
    (getStreamHandler "zz" (.ok ⟨"default"⟩) (fun _ _ => none)).response.status = 400 := by
  have h1 := (lookup_not_found_routes "aaaaaaaaaaaaaaaaaaaaaaaa" "aaaaaaaaaaaaaaaaaaaaaaaa"
    (fun _ => none) (fun _ => none) (fun _ => none) ⟨"default"⟩ (fun _ _ => none)).1 rfl
  have h2 := (lookup_not_found_routes "zz" "zz"
    (fun _ => none) (fun _ => none) (fun _ => none) ⟨"default"⟩ (fun _ _ => none)).2
    "invalid hex id" rfl
  exact ⟨h1.1 rfl, h2.1, h2.2.1, h2.2.2.1, h2.2.2.2⟩

/-- C6: for an existing session, GET /api/pcap/sessions/:id/download serves
pcaps/<hex>.pcap when that file exists, otherwise pcaps/<hex>.pcapng when
that one exists, and answers 404 when neither file exists or the session id
is unknown. -/
theorem download_session_pcap (idParam : String) (id : String)
    (getSession : String → Option DocValue) (fileExists : String → Bool)
    (hid : RowIDFromHex idParam = .ok id) :
    (∀ s, getSession id = some s →
      (fileExists (filepathJoin PcapsBasePath (id ++ ".pcap")) = true →
        downloadSessionHandler idParam getSession fileExists =
          ⟨.fileAttachment (filepathJoin PcapsBasePath (id ++ ".pcap"))
            (id ++ ".pcap"), []⟩) ∧
      (fileExists (filepathJoin PcapsBasePath (id ++ ".pcap")) = false →
        fileExists (filepathJoin PcapsBasePath (id ++ ".pcapng")) = true →
        downloadSessionHandler idParam getSession fileExists =
          ⟨.fileAttachment (filepathJoin PcapsBasePath (id ++ ".pcapng"))
            (id ++ ".pcapng"), []⟩) ∧
      (fileExists (filepathJoin PcapsBasePath (id ++ ".pcap")) = false →
        fileExists (filepathJoin PcapsBasePath (id ++ ".pcapng")) = false →
        downloadSessionHandler idParam getSession fileExists =
          ⟨notFound (.doc [("error", .str "not found"), ("session", .str id)]), []⟩)) ∧
    (getSession id = none →
      downloadSessionHandler idParam getSession fileExists =
        ⟨notFound (.doc [("error", .str "not found"), ("session", .str id)]), []⟩) := by
  constructor
  · intro s hs
    refine ⟨?_, ?_, ?_⟩
    · intro h1
      simp [downloadSessionHandler, hid, hs, h1]
    · intro h1 h2
      simp [downloadSessionHandler, hid, hs, h1, h2]
    · intro h1 h2
      simp [downloadSessionHandler, hid, hs, h1, h2]
  · intro h
    simp [downloadSessionHandler, hid, h]

/-- Witness for the C6 theorem: with only the pcapng file on disk the
handler serves it; with no file, and with an unknown session, it gives 404. -/
theorem download_session_pcap_witness :
    downloadSessionHandler "aaaaaaaaaaaaaaaaaaaaaaaa" (fun _ => some (.doc []))
        (fun p => p == "pcaps/aaaaaaaaaaaaaaaaaaaaaaaa.pcapng") =
      ⟨.fileAttachment "pcaps/aaaaaaaaaaaaaaaaaaaaaaaa.pcapng"
        "aaaaaaaaaaaaaaaaaaaaaaaa.pcapng", []⟩ ∧
    downloadSessionHandler "aaaaaaaaaaaaaaaaaaaaaaaa" (fun _ => some (.doc []))
        (fun _ => false) =
      ⟨notFound (.doc [("error", .str "not found"),
        ("session", .str "aaaaaaaaaaaaaaaaaaaaaaaa")]), []⟩ ∧
    downloadSessionHandler "aaaaaaaaaaaaaaaaaaaaaaaa" (fun _ => none)
        (fun _ => true) =
      ⟨notFound (.doc [("error", .str "not found"),
        ("session", .str "aaaaaaaaaaaaaaaaaaaaaaaa")]), []⟩ := by
  refine ⟨?_, ?_, ?_⟩
  · exact (((download_session_pcap "aaaaaaaaaaaaaaaaaaaaaaaa" "aaaaaaaaaaaaaaaaaaaaaaaa"
      (fun _ => some (.doc []))
      (fun p => p == "pcaps/aaaaaaaaaaaaaaaaaaaaaaaa.pcapng") rfl).1
      (.doc []) rfl).2.1 rfl rfl).trans rfl
  · exact ((download_session_pcap "aaaaaaaaaaaaaaaaaaaaaaaa" "aaaaaaaaaaaaaaaaaaaaaaaa"
      (fun _ => some (.doc [])) (fun _ => false) rfl).1
      (.doc []) rfl).2.2 rfl rfl
  · exact (download_session_pcap "aaaaaaaaaaaaaaaaaaaaaaaa" "aaaaaaaaaaaaaaaaaaaaaaaa"
      (fun _ => none) (fun _ => true) rfl).2 rfl

/-- C7: POST /api/connections/:id/:action maps hide and show to SetHidden
with true and false, mark and unmark to SetMarked with true and false, and
comment to SetComment with the bound comment; a true controller result gives
200 plus a connections.action notification, a false one gives 404, and any
other action gives 400 invalid action with no controller invoked. -/
theorem connection_actions_route (idParam : String) (id : String)
    (comment : String) (action : String) (controller : ControllerCall → Bool)
    (hid : RowIDFromHex idParam = .ok id) :
    ((connectionActionHandler idParam "hide" (.ok comment) controller).2 =
      some (.setHidden id true)) ∧
    ((connectionActionHandler idParam "show" (.ok comment) controller).2 =
      some (.setHidden id false)) ∧
    ((connectionActionHandler idParam "mark" (.ok comment) controller).2 =
      some (.setMarked id true)) ∧
    ((connectionActionHandler idParam "unmark" (.ok comment) controller).2 =
      some (.setMarked id false)) ∧
    ((connectionActionHandler idParam "comment" (.ok comment) controller).2 =
      some (.setComment id comment)) ∧
    (action ≠ "hide" → action ≠ "show" → action ≠ "mark" → action ≠ "unmark" →
      action ≠ "comment" →
      connectionActionHandler idParam action (.ok comment) controller =
        (⟨badRequest "invalid action", []⟩, none)) ∧
    (∀ call, (connectionActionHandler idParam action (.ok comment) controller).2 =
        some call →
      (controller call = false →
        (connectionActionHandler idParam action (.ok comment) controller).1 =
          ⟨notFound (.doc [("error", .str "not found"), ("connection", .str id)]), []⟩) ∧
      (controller call = true →
        (connectionActionHandler idParam action (.ok comment) controller).1 =
          ⟨success (.doc [("connection_id", .str idParam), ("action", .str action)]),
            [("connections.action",
              .doc [("connection_id", .str idParam), ("action", .str action)])]⟩)) := by
  have hrun : ∀ (act : String) (call : ControllerCall),
      (connectionActionHandler idParam act (.ok comment) controller).2 = some call →
      (controller call = false →
        (connectionActionHandler idParam act (.ok comment) controller).1 =
          ⟨notFound (.doc [("error", .str "not found"), ("connection", .str id)]), []⟩) ∧
      (controller call = true →
        (connectionActionHandler idParam act (.ok comment) controller).1 =
          ⟨success (.doc [("connection_id", .str idParam), ("action", .str act)]),
            [("connections.action",
              .doc [("connection_id", .str idParam), ("action", .str act)])]⟩) := by
    intro act call hsc
    by_cases h1 : act = "hide"
    · subst h1
      by_cases hc : controller (.setHidden id true) = true
      · simp [connectionActionHandler, hid, hc] at hsc ⊢
        subst hsc
        simp [hc]
      · simp only [Bool.not_eq_true] at hc
        simp [connectionActionHandler, hid, hc] at hsc ⊢
        subst hsc
        simp [hc]
    · by_cases h2 : act = "show"
      · subst h2
        by_cases hc : controller (.setHidden id false) = true
        · simp [connectionActionHandler, hid, hc] at hsc ⊢
          subst hsc
          simp [hc]
        · simp only [Bool.not_eq_true] at hc
          simp [connectionActionHandler, hid, hc] at hsc ⊢
          subst hsc
          simp [hc]
      · by_cases h3 : act = "mark"
        · subst h3
          by_cases hc : controller (.setMarked id true) = true
          · simp [connectionActionHandler, hid, hc] at hsc ⊢
            subst hsc
            simp [hc]
          · simp only [Bool.not_eq_true] at hc
            simp [connectionActionHandler, hid, hc] at hsc ⊢
            subst hsc
            simp [hc]
        · by_cases h4 : act = "unmark"
          · subst h4
            by_cases hc : controller (.setMarked id false) = true
            · simp [connectionActionHandler, hid, hc] at hsc ⊢
              subst hsc
              simp [hc]
            · simp only [Bool.not_eq_true] at hc
              simp [connectionActionHandler, hid, hc] at hsc ⊢
              subst hsc
              simp [hc]
          · by_cases h5 : act = "comment"
            · subst h5
              by_cases hc : controller (.setComment id comment) = true
              · simp [connectionActionHandler, hid, hc] at hsc ⊢
                subst hsc
                simp [hc]
              · simp only [Bool.not_eq_true] at hc
                simp [connectionActionHandler, hid, hc] at hsc ⊢
                subst hsc
                simp [hc]
            · simp [connectionActionHandler, hid, h1, h2, h3, h4, h5] at hsc
  refine ⟨?_, ?_, ?_, ?_, ?_, ?_, hrun action⟩
  · by_cases hc : controller (.setHidden id true) = true <;>
      [skip; simp only [Bool.not_eq_true] at hc] <;>
      simp [connectionActionHandler, hid, hc]
  · by_cases hc : controller (.setHidden id false) = true <;>
      [skip; simp only [Bool.not_eq_true] at hc] <;>
      simp [connectionActionHandler, hid, hc]
  · by_cases hc : controller (.setMarked id true) = true <;>
      [skip; simp only [Bool.not_eq_true] at hc] <;>
      simp [connectionActionHandler, hid, hc]
  · by_cases hc : controller (.setMarked id false) = true <;>
      [skip; simp only [Bool.not_eq_true] at hc] <;>
      simp [connectionActionHandler, hid, hc]
  · by_cases hc : controller (.setComment id comment) = true <;>
      [skip; simp only [Bool.not_eq_true] at hc] <;>
      simp [connectionActionHandler, hid, hc]
  · intro h1 h2 h3 h4 h5
    simp [connectionActionHandler, hid, h1, h2, h3, h4, h5]

/-- Witness for the C7 theorem: hide invokes SetHidden true; an unknown
action gives 400 with no controller call; a false controller result on mark
gives 404. -/
theorem connection_actions_route_witness :
    (connectionActionHandler "aaaaaaaaaaaaaaaaaaaaaaaa" "hide" (.ok "note")
      (fun _ => true)).2 = some (.setHidden "aaaaaaaaaaaaaaaaaaaaaaaa" true) ∧
    connectionActionHandler "aaaaaaaaaaaaaaaaaaaaaaaa" "purge" (.ok "note")
      (fun _ => true) = (⟨badRequest "invalid action", []⟩, none) ∧
    (connectionActionHandler "aaaaaaaaaaaaaaaaaaaaaaaa" "mark" (.ok "note")
      (fun _ => false)).1 =
      ⟨notFound (.doc [("error", .str "not found"),
        ("connection", .str "aaaaaaaaaaaaaaaaaaaaaaaa")]), []⟩ := by
  have ht := connection_actions_route "aaaaaaaaaaaaaaaaaaaaaaaa"
    "aaaaaaaaaaaaaaaaaaaaaaaa" "note" "purge" (fun _ => true) rfl
  have hf := connection_actions_route "aaaaaaaaaaaaaaaaaaaaaaaa"
    "aaaaaaaaaaaaaaaaaaaaaaaa" "note" "mark" (fun _ => false) rfl
  refine ⟨ht.1, ?_, ?_⟩
  · exact ht.2.2.2.2.2.1 (by decide) (by decide) (by decide) (by decide) (by decide)
  · exact (hf.2.2.2.2.2.2 (.setMarked "aaaaaaaaaaaaaaaaaaaaaaaa" true) hf.2.2.1).1 rfl

/-- C8: POST /setup answers 404 once the application is configured and,
while unconfigured, applies the bound settings and answers 202 with a setup
notification; conversely every /api route is answered 503 setup-required by
the middleware, without the handler running, until the application is
configured, and runs normally afterwards. -/
theorem setup_one_shot_gates_api (bindResult : Except String SetupSettings)
    (settings : SetupSettings) (host : String) (authRequired : Bool)
    (accounts : Accounts) (credentials : Option (String × String))
    (handler : Unit → HandlerOutput) :
    (setupHandler true bindResult = (⟨.abortStatus 404, []⟩, none)) ∧
    (bindResult = .ok settings →
      setupHandler false bindResult =
        (⟨.json 202 (.doc []), [("setup", .doc [])]⟩, some settings)) ∧
    (runApiRoute false host authRequired accounts credentials handler =
      ⟨.json 503 (.doc [("error", .str "setup required"),
        ("url", .str (host ++ "/setup"))]), []⟩) ∧
    (runApiRoute true host false accounts credentials handler = handler ()) := by
  refine ⟨rfl, ?_, rfl, rfl⟩
  intro h
  simp [setupHandler, h]

/-- Witness for the C8 theorem: the setup route at concrete settings, the
503 gate on an arbitrary-result handler, and the pass-through once
configured. -/
theorem setup_one_shot_gates_api_witness :
    setupHandler true (.ok ⟨⟨true⟩, [("operator", "secret")]⟩) =
      (⟨.abortStatus 404, []⟩, none) ∧
    setupHandler false (.ok ⟨⟨true⟩, [("operator", "secret")]⟩) =
      (⟨.json 202 (.doc []), [("setup", .doc [])]⟩,
        some ⟨⟨true⟩, [("operator", "secret")]⟩) ∧
    runApiRoute false "caronte.local" true [] none
        (fun _ => ⟨success (.doc []), []⟩) =
      ⟨.json 503 (.doc [("error", .str "setup required"),
        ("url", .str "caronte.local/setup")]), []⟩ := by
  have h := setup_one_shot_gates_api (.ok ⟨⟨true⟩, [("operator", "secret")]⟩)
    ⟨⟨true⟩, [("operator", "secret")]⟩ "caronte.local" true [] none
    (fun _ => ⟨success (.doc []), []⟩)
  exact ⟨h.1, h.2.1 rfl, h.2.2.1⟩

/-- C9: when AuthRequired is false the auth middleware passes every request
through with no credential check, so any two requests differing only in the
supplied credentials get the same outcome on every /api route; basic-auth
against the configured accounts applies only when AuthRequired is true. -/
theorem auth_not_required_ignores_credentials (accounts : Accounts)
    (credentials c1 c2 : Option (String × String)) (isConfigured : Bool)
    (host : String) (handler : Unit → HandlerOutput) :
    (AuthRequiredMiddleware false accounts credentials = .next) ∧
    (runApiRoute isConfigured host false accounts c1 handler =
      runApiRoute isConfigured host false accounts c2 handler) ∧
    (AuthRequiredMiddleware true accounts credentials =
      BasicAuth accounts credentials) := by
  refine ⟨rfl, ?_, rfl⟩
  cases isConfigured <;> rfl

/-- C10: POST /api/pcap/file with a bound request first rejects a missing
source file with 400 and no filesystem effect; otherwise it copies the file
into the processing directory under a timestamp-prefixed name, and the
original is removed exactly when ImportPcap fails and delete_original_file
is set — on success the original is left untouched regardless of the flag. -/
theorem pcap_file_delete_original_only_on_error
    (bindResult : Except String PcapFileRequest) (request : PcapFileRequest)
    (fileExists : String → Bool) (now : Nat)
    (importPcap : String → Bool → Except String String)
    (hbind : bindResult = .ok request) :
    (fileExists request.file = false →
      postPcapFileHandler bindResult fileExists now importPcap =
        (⟨badRequest "file not exists", []⟩, [])) ∧
    (fileExists request.file = true →
      (∀ e, importPcap (toString now ++ "-" ++ filepathBase request.file)
          request.flushAll = .error e →
        postPcapFileHandler bindResult fileExists now importPcap =
          (⟨unprocessableEntity e, []⟩,
            if request.deleteOriginalFile then
              [.copy (filepathJoin ProcessingPcapsBasePath
                  (toString now ++ "-" ++ filepathBase request.file)) request.file,
                .remove request.file]
            else
              [.copy (filepathJoin ProcessingPcapsBasePath
                  (toString now ++ "-" ++ filepathBase request.file)) request.file])) ∧
      (∀ sid, importPcap (toString now ++ "-" ++ filepathBase request.file)
          request.flushAll = .ok sid →
        postPcapFileHandler bindResult fileExists now importPcap =
          (⟨.json 202 (.doc [("session", .str sid)]),
            [("pcap.file", .doc [("session", .str sid)])]⟩,
            [.copy (filepathJoin ProcessingPcapsBasePath
              (toString now ++ "-" ++ filepathBase request.file)) request.file]))) := by
  constructor
  · intro h
    simp [postPcapFileHandler, hbind, h]
  · intro h
    constructor
    · intro e he
      cases hd : request.deleteOriginalFile <;>
        simp [postPcapFileHandler, hbind, h, he, hd]
    · intro sid hok
      simp [postPcapFileHandler, hbind, h, hok]

/-- Witness for the C10 theorem: with delete_original_file set, a failing
ImportPcap copies then removes the original, while a succeeding one only
copies; a missing source file produces no filesystem event. -/
theorem pcap_file_delete_original_only_on_error_witness :
    postPcapFileHandler (.ok ⟨"dumps/test.pcap", false, true⟩) (fun _ => true) 7
        (fun _ _ => .error "bad pcap") =
      (⟨unprocessableEntity "bad pcap", []⟩,
        [.copy "pcaps/processing/7-test.pcap" "dumps/test.pcap",
          .remove "dumps/test.pcap"]) ∧
    postPcapFileHandler (.ok ⟨"dumps/test.pcap", false, true⟩) (fun _ => true) 7
        (fun _ _ => .ok "cafe") =
      (⟨.json 202 (.doc [("session", .str "cafe")]),
        [("pcap.file", .doc [("session", .str "cafe")])]⟩,
        [.copy "pcaps/processing/7-test.pcap" "dumps/test.pcap"]) ∧
    postPcapFileHandler (.ok ⟨"dumps/test.pcap", false, true⟩) (fun _ => false) 7
        (fun _ _ => .ok "cafe") = (⟨badRequest "file not exists", []⟩, []) := by
  refine ⟨?_, ?_, ?_⟩
  · exact (((pcap_file_delete_original_only_on_error _ ⟨"dumps/test.pcap", false, true⟩
      (fun _ => true) 7 (fun _ _ => .error "bad pcap") rfl).2 rfl).1
      "bad pcap" rfl).trans rfl
  · exact (((pcap_file_delete_original_only_on_error _ ⟨"dumps/test.pcap", false, true⟩
      (fun _ => true) 7 (fun _ _ => .ok "cafe") rfl).2 rfl).2 "cafe" rfl).trans rfl
  · exact (pcap_file_delete_original_only_on_error _ ⟨"dumps/test.pcap", false, true⟩
      (fun _ => false) 7 (fun _ _ => .ok "cafe") rfl).1 rfl

end Caronte
